import Mathlib

/-!
Verification of the wecom-assistant webhook/agent pipeline.

Shallow embedding of the code in `src/`:
* `wecom_handler.py` — `get_media_url`, outbound send helpers;
* `main.py` — `extract_content`, `process_messages`, `wechat_callback`;
* `tools.py` — `get_media_content_from_url`, `check_green_channel_status`,
  `all_tools`;
* `exceptions.py` — `handle_exception` (its user-visible message);
* `agent.py` — the bounded reasoning loop (the loop itself lives in the
  LangChain `AgentExecutor` library, so it is modelled from the spec).

External collaborators (HTTP, crypto, LLM completions, the platform SDK)
are passed in as explicit oracles: a function parameter stands for each
external call, and an `Except`/`Bool` outcome stands for "the call raised".
-/

namespace WecomAssistant

/-- Python truthiness of an optional string: `None` and `""` are falsy. -/
def pyTruthy : Option String → Bool
  | none => false
  | some s => s ≠ ""

/-- Python `a or b` on optional strings: keeps `a` when truthy, else `b`. -/
def pyOr (a b : Option String) : Option String :=
  if pyTruthy a then a else b

/-- Python f-string rendering of an optional string (`None` prints as "None"). -/
def pyStr : Option String → String
  | none => "None"
  | some s => s

/-- Embeds `exceptions.handle_exception`: the user-visible message attached to a
wrapped exception, as a function of the original exception's `str(exc)`.
(When the exception is already a `WecomAssistantException` its own
`user_message` is kept; callers below model that case by passing the
message through unchanged where it matters.) -/
def handle_exception_user_message (error_message : String) : String :=
  let lower := error_message.data.map Char.toLower
  if "signature".data <:+: lower then "系统验证失败，请联系管理员。"
  else if "timeout".data <:+: lower then "处理时间较长，请稍后再试。"
  else if "quota".data <:+: lower ∨ "rate".data <:+: lower then
    "系统繁忙，请稍后再试。"
  else if "network".data <:+: lower ∨ "connection".data <:+: lower then
    "网络连接异常，请稍后再试。"
  else "抱歉，系统遇到了一些问题，请稍后再试。"

/-- Embeds `wecom_handler.get_media_url`: temporary media URL built from the cached
access token and the media id. -/
def get_media_url (access_token media_id : String) : String :=
  "https://qyapi.weixin.qq.com/cgi-bin/media/get?access_token=" ++ access_token
    ++ "&media_id=" ++ media_id

/-- The four media message kinds `['image', 'video', 'voice', 'file']`. -/
inductive MediaKind where
  | image | video | voice | file
deriving DecidableEq, Repr

def MediaKind.str : MediaKind → String
  | .image => "image"
  | .video => "video"
  | .voice => "voice"
  | .file => "file"

/-- A synced customer-service message dict as consumed by
`main.extract_content`: discriminated on `msg['msgtype']`, with the optional
`sender_name` / `external_userid` keys, the type-specific payload, and for
`merged_msg` the list of `(sender_name, parsed msg_content)` items. -/
inductive Msg where
  | text (senderName externalUserid : Option String) (content : String)
  | media (senderName externalUserid : Option String) (kind : MediaKind) (mediaId : String)
  | event (senderName externalUserid : Option String)
      (eventType : String) (eventExternalUserid : String)
  | merged (senderName externalUserid : Option String) (items : List (String × Msg))
  | other (senderName externalUserid : Option String) (msgtype : String)
deriving Repr

def Msg.senderName : Msg → Option String
  | .text s _ _ => s | .media s _ _ _ => s | .event s _ _ _ => s
  | .merged s _ _ => s | .other s _ _ => s

def Msg.externalUserid : Msg → Option String
  | .text _ e _ => e | .media _ e _ _ => e | .event _ e _ _ => e
  | .merged _ e _ => e | .other _ e _ => e

mutual

/-- Embeds `main.extract_content(msg, output_contents, sender_name)`: appends the
context lines for `msg` to `output_contents` and returns the grown list
(the Python mutates the list in place). `access_token` feeds the
`get_media_url` call made for media messages. -/
def extract_content (access_token : String) (msg : Msg)
    (output_contents : List String) (sender_name : Option String) : List String :=
  let user_id := pyOr (pyOr sender_name msg.senderName) msg.externalUserid
  match msg with
  | .text _ _ content =>
      output_contents ++ [pyStr user_id ++ " 发送了一条消息，content是: " ++ content]
  | .media _ _ kind mediaId =>
      let media_url := get_media_url access_token mediaId
      output_contents ++ [pyStr user_id ++ " 发送了一个" ++ kind.str ++ "，URL是: " ++ media_url]
  | .event _ _ eventType eventExternalUserid =>
      if eventType = "enter_session" then
        output_contents ++ [eventExternalUserid ++ " 发送了一条消息，content是: 你好！"]
      else output_contents
  | .merged _ _ items => extract_content_items access_token items output_contents
  | .other _ _ _ => output_contents

/-- The list comprehension over `merged_msg['item']`: each item recursively
extracted with its own `sender_name`, left to right, into the shared list. -/
def extract_content_items (access_token : String)
    (items : List (String × Msg)) (output_contents : List String) : List String :=
  match items with
  | [] => output_contents
  | (sender, m) :: rest =>
      extract_content_items access_token rest
        (extract_content access_token m output_contents (some sender))

end

/-! ### tools.py -/

/-- The allow-listed category labels `tools.green_channel_categories`. -/
def green_channel_categories : List String :=
  ["鱼类", "虾类", "贝类", "蟹类", "海带", "紫菜", "海蜇", "海参", "仔猪", "蜜蜂",
   "新鲜家禽肉和家畜肉", "新鲜的鸡蛋", "新鲜的鸭蛋", "新鲜的鹅蛋", "新鲜的鹌鹑蛋",
   "新鲜的鸽蛋", "新鲜的火鸡蛋", "新鲜的珍珠鸡蛋", "新鲜的雉鸡蛋", "新鲜的鹧鸪蛋",
   "新鲜的番鸭蛋", "新鲜的绿头鸭蛋", "新鲜的鸸鹋蛋", "新鲜的鸵鸟蛋", "生鲜乳"]

/-- The categorization prompt built by `check_green_channel_status` (the
Python f-string, with the category list rendered Python-`repr` style). -/
def categorize_prompt (item_name : String) : String :=
  "请将以下物品归入最合适的类别中。\n可选的类别有：[" ++
    String.intercalate ", " (green_channel_categories.map (fun c => "'" ++ c ++ "'")) ++
    "]\n\n物品：“" ++ item_name ++
    "”\n\n请只回答一个类别名称，如果有你不认识的物品无法归类，请回答\"未知\"，不要包含任何解释或多余的文字。。"

/-- Embeds `tools.check_green_channel_status`: exact membership in the
startup-loaded `green_channel_goods` allow-list first; when absent and the
categorization client is available, one completion call classifying the item,
then membership of the extracted category text in
`green_channel_categories`. Returns the boolean result together with the
number of completion calls made. `goods` is the startup-loaded allow-list
(parsed from the PDF documents, external inputs); `green_channel_llm` is the
completion oracle (`none` when client initialization failed). -/
def check_green_channel_status (goods : List String)
    (green_channel_llm : Option (String → String)) (item_name : String) : Bool × Nat :=
  let is_on_list := decide (item_name ∈ goods)
  match is_on_list, green_channel_llm with
  | false, some llm =>
      let category := llm (categorize_prompt item_name)
      (decide (category ∈ green_channel_categories), 1)
  | b, _ => (b, 0)

/-- A Python exception as discriminated by the `except` clauses of
`get_media_content_from_url`: a `requests.exceptions.RequestException`
(network error, or 4xx/5xx from `raise_for_status`) versus any other
exception; carries `str(exc)`. -/
inductive PyExc where
  | requestException (message : String)
  | otherException (message : String)
deriving DecidableEq, Repr

/-- Oracles for the external calls made by `get_media_content_from_url`:
`download` stands for `requests.get` + `raise_for_status` + `raw.read` +
base64 encoding (returns the encoded content and the optional
`Content-Type` header), `analyze` stands for `vision_llm.invoke` on the
multimodal message (mime type, encoded content). -/
structure VisionEnv where
  vision_llm_ok : Bool
  download : String → Except PyExc (String × Option String)
  analyze : String → String → Except PyExc String

/-- Embeds `tools.get_media_content_from_url`: download the media, send it to
the vision model, return the description; every raised exception is caught
and turned into a user-facing string, discriminated by exception kind
exactly as the two `except` clauses do. -/
def get_media_content_from_url (env : VisionEnv) (media_url : String) : String :=
  if env.vision_llm_ok = false then "视觉分析工具未正确初始化。"
  else
    match env.download media_url with
    | .error (.requestException m) =>
        "下载媒体文件失败: " ++ handle_exception_user_message m
    | .error (.otherException m) =>
        "分析媒体内容时发生错误: " ++ handle_exception_user_message m
    | .ok (content, contentType) =>
        let mime_type := contentType.getD "image/jpeg"
        match env.analyze mime_type content with
        | .ok description => description
        | .error (.requestException m) =>
            "下载媒体文件失败: " ++ handle_exception_user_message m
        | .error (.otherException m) =>
            "分析媒体内容时发生错误: " ++ handle_exception_user_message m

/-- Embeds `tools.all_tools`, by registered tool name: the registry handed to
the agent. The `highway_knowledge_retriever` definition in `tools.py` is
commented out, so only the vision tool and the eligibility tool are
registered. -/
def all_tools : List String :=
  ["get_media_content_from_url", "check_green_channel_status"]

/-! ### main.py — background task -/

/-- Outcome of one background task: the messages actually delivered through
the outbound sender, and the success flag recorded to the performance
monitor. -/
structure TaskOutcome where
  delivered : List String
  success : Bool
deriving DecidableEq, Repr

/-- The `except` branch of `process_messages`: send the user-visible error
message; over the customer-service channel `send_kf_message` swallows its own
failures, over the direct channel the inner `try` swallows the send failure.
`n` is the index of this send attempt in the task. -/
def process_messages_on_error (open_kfid : String) (send_ok : Nat → Bool)
    (n : Nat) (error_message : String) : TaskOutcome :=
  if open_kfid ≠ "" then
    { delivered := if send_ok n then [error_message] else [], success := false }
  else if send_ok n then
    { delivered := [error_message], success := false }
  else
    { delivered := [], success := false }

/-- Embeds `main.process_messages`: invoke the agent, deliver the reply; any
exception is caught at the task boundary, wrapped by `handle_exception`, and
its `user_message` is sent to the user instead. `send_ok n` is the outcome of
the task's `n`-th outbound send attempt (`false` means the underlying send
raised — which `send_kf_message` swallows, while `client.message.send_text`
propagates). `agent_result` is the outcome of `invoke_agent`
(`.error str(e)` when it raised); `send_exc_message` is `str` of the
exception raised by a failing direct send. -/
def process_messages (open_kfid : String) (send_ok : Nat → Bool)
    (agent_result : Except String String) (send_exc_message : String) : TaskOutcome :=
  match agent_result with
  | .ok agent_response =>
      if open_kfid ≠ "" then
        { delivered := if send_ok 0 then [agent_response] else [], success := true }
      else if send_ok 0 then
        { delivered := [agent_response], success := true }
      else
        process_messages_on_error open_kfid send_ok 1
          (handle_exception_user_message send_exc_message)
  | .error exc_message =>
      process_messages_on_error open_kfid send_ok 0
        (handle_exception_user_message exc_message)

/-! ### main.py — webhook endpoint -/

/-- An HTTP response as built by the handler: status code and body. -/
structure CbResponse where
  status : Nat
  body : String
deriving DecidableEq, Repr

/-- Modelled from the spec: `wechatpy`'s `WeChatCrypto.check_signature` is
library code not under `src/`. Per the spec, the signature check is a keyed
hash comparison over `{token, timestamp, nonce, payload}` (any mismatch is a
hard rejection), and on success the echo string is decrypted and returned.
`digest` is the keyed hash (the verification token is fixed inside it);
`decrypt_echo` is the symmetric decryption of the echo payload. -/
def check_signature (digest : String → String → String → String)
    (decrypt_echo : String → String)
    (signature timestamp nonce echostr : String) : Option String :=
  if signature = digest timestamp nonce echostr then some (decrypt_echo echostr)
  else none

/-- Embeds the GET branch of `main.wechat_callback`: URL verification. On a
valid signature, HTTP 200 with the decrypted echo string; on
`InvalidSignatureException`, HTTP 401. -/
def wechat_callback_get (digest : String → String → String → String)
    (decrypt_echo : String → String)
    (signature timestamp nonce echostr : String) : CbResponse :=
  match check_signature digest decrypt_echo signature timestamp nonce echostr with
  | some echo => ⟨200, echo⟩
  | none => ⟨401, "Invalid signature"⟩

/-- An exception escaping a step of the POST branch, as discriminated by its
`except` clauses: `InvalidSignatureException` versus anything else. -/
inductive CbExc where
  | invalidSignature
  | other
deriving DecidableEq, Repr

/-- A parsed `wechatpy` message object, with the attributes the POST branch
reads: `msg.type`, `msg.source`, and the optional `open_kf_id` / `token`
attributes (`getattr(..., None)`), plus the type-specific payload fields. -/
structure ParsedMsg where
  type : String
  source : String
  open_kf_id : Option String
  token : Option String
  content : String
  media_id : String
deriving DecidableEq, Repr

/-- Arguments of one queued `process_messages` background task (minus the
request id, which is a fresh UUID). -/
structure BgTask where
  user_input : List String
  user_id : String
  agent_id : String
  open_kfid : String
deriving DecidableEq, Repr

/-- Observable outcome of one POST request: the HTTP response, the background
tasks queued, and the direct sends performed by the handler itself. -/
structure PostOutcome where
  status : Nat
  body : String
  tasks : List BgTask
  sends : List (String × String)
deriving DecidableEq, Repr

/-- Oracles for the POST branch: the decrypt outcome for this request's body,
`parse_message` (falsy result modelled as `none`), `sync_kf_messages` (total:
it catches its own errors and returns `[]`), the cached access token feeding
`get_media_url`, `config.WECOM_AGENT_ID`, and whether a direct
`client.message.send_text` call from the handler succeeds. -/
structure PostEnv where
  decrypt : Except CbExc String
  parse : String → Option ParsedMsg
  sync_kf : String → String → List Msg
  access_token : String
  agent_id : String
  send_text_ok : Bool

/-- Embeds the POST branch of `main.wechat_callback`: decrypt, parse, build
the normalized input, queue exactly one background task, and answer 200 —
with 401 on signature failure, 400 on an unparseable message, 500 on any
other exception escaping the `try` block (including `msg_list[-1]` on an
empty sync result, a missing `external_userid` key, and a raising direct
send). -/
def wechat_callback_post (env : PostEnv) : PostOutcome :=
  match env.decrypt with
  | .error .invalidSignature => ⟨401, "Invalid signature", [], []⟩
  | .error .other => ⟨500, "", [], []⟩
  | .ok decrypted =>
    match env.parse decrypted with
    | none => ⟨400, "", [], []⟩
    | some msg =>
      let open_kf_id := msg.open_kf_id
      let user_id := msg.source
      if msg.type = "event" then
        if pyTruthy msg.token && pyTruthy open_kf_id then
          let msg_list := env.sync_kf (open_kf_id.getD "") (msg.token.getD "")
          match msg_list.getLast? with
          | none => ⟨500, "", [], []⟩
          | some last =>
            match last.externalUserid with
            | none => ⟨500, "", [], []⟩
            | some uid =>
              let user_input_contents := extract_content env.access_token last [] none
              ⟨200, "", [⟨user_input_contents, uid, env.agent_id, open_kf_id.getD ""⟩], []⟩
        else ⟨200, "", [], []⟩
      else if msg.type = "text" then
        ⟨200, "",
          [⟨[user_id ++ " 发送了一条消息，content是: " ++ msg.content],
            user_id, env.agent_id, open_kf_id.getD ""⟩], []⟩
      else if msg.type ∈ (["image", "video", "voice", "file"] : List String) then
        ⟨200, "",
          [⟨[user_id ++ " 发送了一个" ++ msg.type ++ "，URL是: "
              ++ get_media_url env.access_token msg.media_id],
            user_id, env.agent_id, open_kf_id.getD ""⟩], []⟩
      else
        if env.send_text_ok then
          ⟨200, "", [], [(user_id, "我暂时无法处理这种类型的消息。")]⟩
        else ⟨500, "", [], []⟩

/-! ### agent.py — reasoning loop -/

/-- One planning step of the tools-enabled completion: either a final answer
or a batch of requested tool invocations. -/
inductive AgentStep where
  | finish (output : String)
  | actions (tool_calls : List String)

/-- Modelled from the spec: the iteration cap of the Reasoning Dispatcher
loop. The loop itself lives in LangChain's `AgentExecutor` (library code not
under `src/`); `agent.py` builds the executor with
`AgentExecutor.from_agent_and_tools(...)` without overriding the library's
default `max_iterations`, which is 15. -/
def agent_executor_max_iterations : Nat := 15

/-- Result of one reasoning-loop run: the final output and the number of
plan/act iterations consumed. -/
structure LoopResult where
  output : String
  iterations : Nat
deriving DecidableEq, Repr

/-- Modelled from the spec: the bounded classify/select/execute/synthesize
loop of LangChain's `AgentExecutor` (library code not under `src/`). Each
iteration asks `plan` for the next step given the scratchpad of
`(tool call, observation)` pairs; a `finish` step ends the loop, an
`actions` step executes every requested tool call and loops; when the
iteration cap (`fuel`) is exhausted the loop stops with the library's
early-stopping output. -/
def agent_executor_loop (plan : List (String × String) → AgentStep)
    (run_tool : String → String) :
    Nat → List (String × String) → Nat → LoopResult
  | 0, _, iters => ⟨"Agent stopped due to iteration limit or time limit.", iters⟩
  | fuel + 1, scratchpad, iters =>
    match plan scratchpad with
    | .finish out => ⟨out, iters + 1⟩
    | .actions calls =>
        agent_executor_loop plan run_tool fuel
          (scratchpad ++ calls.map (fun c => (c, run_tool c))) (iters + 1)

/-- The executor built in `agent.py` (`agent_executor.invoke` on a fresh
scratchpad, with the default iteration cap). -/
def agent_executor (plan : List (String × String) → AgentStep)
    (run_tool : String → String) : LoopResult :=
  agent_executor_loop plan run_tool agent_executor_max_iterations [] 0

/-! ### Example environments for concrete instantiations -/

/-- Example POST environment: valid signature, a parsed `text` message. -/
def postEnvText : PostEnv :=
  ⟨.ok "xml", fun _ => some ⟨"text", "user1", none, none, "你好", "m1"⟩,
   fun _ _ => [], "T", "A", true⟩

/-- Example POST environment: signature verification fails. -/
def postEnvInvalidSig : PostEnv :=
  ⟨.error .invalidSignature, fun _ => none, fun _ _ => [], "T", "A", true⟩

/-- Example POST environment: an `event` message with no session token. -/
def postEnvEventNoToken : PostEnv :=
  ⟨.ok "xml", fun _ => some ⟨"event", "user1", some "kf1", none, "", ""⟩,
   fun _ _ => [], "T", "A", true⟩

/-- Example POST environment: an unsupported `link` message. -/
def postEnvUnsupported : PostEnv :=
  ⟨.ok "xml", fun _ => some ⟨"link", "user1", none, none, "", ""⟩,
   fun _ _ => [], "T", "A", true⟩

/-- Example POST environment: a parsed `image` message. -/
def postEnvMedia : PostEnv :=
  ⟨.ok "xml", fun _ => some ⟨"image", "user1", none, none, "", "m1"⟩,
   fun _ _ => [], "T", "A", true⟩

/-- Example POST environment: an `event` with session token and kf id, whose
message sync returns one text message. -/
def postEnvEventToken : PostEnv :=
  ⟨.ok "xml", fun _ => some ⟨"event", "user1", some "kf1", some "tok1", "", ""⟩,
   fun _ _ => [Msg.text (some "s") (some "u2") "hi"], "T", "A", true⟩

/-- Example POST environment: an unsupported `link` message whose direct
apology send raises. -/
def postEnvUnsupportedSendFail : PostEnv :=
  ⟨.ok "xml", fun _ => some ⟨"link", "user1", none, none, "", ""⟩,
   fun _ _ => [], "T", "A", false⟩

/-! ## Theorems -/

/-! ### Helper lemmas -/

/-- Appending to the accumulator commutes out of `extract_content`
(joint statement with `extract_content_items`, by functional induction). -/
theorem extract_content_append_all (tok : String) :
    ∀ (msg : Msg) (_o : List String) (s : Option String),
      ∀ out, extract_content tok msg out s = out ++ extract_content tok msg [] s := by
  refine extract_content.induct tok
    (fun msg _ s => ∀ out, extract_content tok msg out s = out ++ extract_content tok msg [] s)
    (fun items _ => ∀ out,
      extract_content_items tok items out = out ++ extract_content_items tok items [])
    ?_ ?_ ?_ ?_ ?_ ?_ ?_ ?_
  · intro _ s a a1 c out
    simp [extract_content]
  · intro _ s a a1 k mid out
    simp [extract_content]
  · intro _ s a a1 e out
    simp [extract_content]
  · intro _ s a a1 et ee h out
    simp [extract_content, h]
  · intro _ s a a1 items ih out
    simp only [extract_content]
    exact ih out
  · intro _ s a a1 t out
    simp [extract_content]
  · intro _ out
    simp [extract_content_items]
  · intro _ sender m rest ih1 ih2 out
    simp only [extract_content_items]
    rw [ih2 (extract_content tok m out (some sender)), ih1 out,
      ih2 (extract_content tok m [] (some sender)), List.append_assoc]

theorem extract_content_append (tok : String) (msg : Msg) (out : List String)
    (s : Option String) :
    extract_content tok msg out s = out ++ extract_content tok msg [] s :=
  extract_content_append_all tok msg [] s out

/-- Flattening of `extract_content_items`: the per-item lines concatenated
depth-first, left-to-right, each child extracted with its own item
`sender_name`. -/
theorem extract_content_items_flatMap (tok : String) (items : List (String × Msg)) :
    ∀ out, extract_content_items tok items out
      = out ++ items.flatMap (fun it => extract_content tok it.2 [] (some it.1)) := by
  induction items with
  | nil => intro out; simp [extract_content_items]
  | cons hd tl ih =>
      intro out
      obtain ⟨sender, m⟩ := hd
      simp only [extract_content_items]
      rw [ih (extract_content tok m out (some sender)),
        extract_content_append tok m out (some sender), List.append_assoc,
        List.flatMap_cons]

/-! ### C5 -/

/-- C5: for every `merged_msg` event, including nested merges,
`extract_content` emits the children's context lines in the original child
order — depth-first, left-to-right, order-preserving — and a text child is
attributed to its own item `sender_name` (when that name is non-empty, else
the Python `or`-chain falls through). -/
theorem merged_normalization_order_and_attribution (tok : String)
    (sn eu : Option String) (items : List (String × Msg))
    (out : List String) (s : Option String) :
    extract_content tok (Msg.merged sn eu items) out s
      = out ++ items.flatMap (fun it => extract_content tok it.2 [] (some it.1)) ∧
    (∀ nm sn' eu' c, nm ≠ "" →
      extract_content tok (Msg.text sn' eu' c) [] (some nm)
        = [nm ++ " 发送了一条消息，content是: " ++ c]) := by
  constructor
  · have h1 : extract_content tok (Msg.merged sn eu items) out s
        = extract_content_items tok items out := by
      simp [extract_content]
    rw [h1]
    exact extract_content_items_flatMap tok items out
  · intro nm sn' eu' c h
    simp [extract_content, pyOr, pyTruthy, pyStr, h]

/-- Witness for C5 at a concrete nested merge. -/
theorem merged_normalization_order_and_attribution_witness :
    extract_content "T" (Msg.merged none none
        [("alice", Msg.text none none "hi"),
         ("bob", Msg.merged none none [("carol", Msg.text none none "yo")])]) [] none
      = ["alice 发送了一条消息，content是: hi", "carol 发送了一条消息，content是: yo"]
    ∧ extract_content "T" (Msg.text none none "hi") [] (some "alice")
      = ["alice 发送了一条消息，content是: hi"] := by
  constructor
  · rw [(merged_normalization_order_and_attribution "T" none none _ [] none).1]
    simp [extract_content, extract_content_items, pyOr, pyTruthy, pyStr]
  · exact (merged_normalization_order_and_attribution "T" none none [] [] none).2
      "alice" none none "hi" (by decide)

/-! ### C10 -/

/-- C10: the reasoning loop terminates for every input — regardless of how
many tool invocations the model requests per turn (`plan` may return
arbitrarily long `actions` batches), the loop never exceeds its fixed
iteration cap. Totality is by construction (`agent_executor_loop` is a total
function); the theorem bounds the iterations consumed. -/
theorem agent_executor_iteration_cap
    (plan : List (String × String) → AgentStep) (run_tool : String → String) :
    (agent_executor plan run_tool).iterations ≤ agent_executor_max_iterations := by
  have key : ∀ fuel scratchpad iters,
      (agent_executor_loop plan run_tool fuel scratchpad iters).iterations ≤ iters + fuel := by
    intro fuel
    induction fuel with
    | zero => intro scr iters; simp [agent_executor_loop]
    | succ n ih =>
        intro scr iters
        simp only [agent_executor_loop]
        cases plan scr with
        | finish out => simp
        | actions calls => exact le_trans (ih _ _) (by omega)
  simpa [agent_executor] using key agent_executor_max_iterations [] 0

/-! ### C2 -/

/-- C2 counterexample: the Capability Registry handed to the agent does not
contain three tools, and contains no knowledge-retrieval tool — the
`highway_knowledge_retriever` definition is commented out in `tools.py`. -/
theorem all_tools_not_three_tools :
    ¬ all_tools.length = 3 ∧ "highway_knowledge_retriever" ∉ all_tools := by
  decide

/-- C2 amended: the Capability Registry contains exactly two tools — the
vision tool and the green-channel eligibility tool. -/
theorem all_tools_registry :
    all_tools = ["get_media_content_from_url", "check_green_channel_status"]
      ∧ all_tools.length = 2 := by
  decide

/-! ### C4 -/

/-- C4: `check_green_channel_status` returns `true` with no categorization
call whenever the item is an exact member of the allow-list; for an item not
on the list it makes exactly one categorization call and returns `true` iff
the extracted category text is in the allow-listed category set. -/
theorem check_green_channel_status_spec (goods : List String)
    (llm : String → String) (item_name : String) :
    (item_name ∈ goods →
      check_green_channel_status goods (some llm) item_name = (true, 0)) ∧
    (item_name ∉ goods →
      check_green_channel_status goods (some llm) item_name
        = (decide (llm (categorize_prompt item_name) ∈ green_channel_categories), 1)) := by
  constructor
  · intro h
    simp [check_green_channel_status, h]
  · intro h
    simp [check_green_channel_status, h]

/-- Witness for C4: the exact match "苹果" answers without a categorization
call; the unknown item "小脑袋鱼" consults the categorizer once and is
accepted exactly when the returned category is allow-listed. -/
theorem check_green_channel_status_spec_witness :
    "苹果" ∈ (["苹果", "白菜"] : List String) ∧
    check_green_channel_status ["苹果", "白菜"] (some (fun _ => "未知")) "苹果" = (true, 0) ∧
    "小脑袋鱼" ∉ (["苹果", "白菜"] : List String) ∧
    check_green_channel_status ["苹果", "白菜"] (some (fun _ => "鱼类")) "小脑袋鱼" = (true, 1) := by
  refine ⟨by decide, (check_green_channel_status_spec _ _ _).1 (by decide), by decide, ?_⟩
  have h := (check_green_channel_status_spec ["苹果", "白菜"] (fun _ => "鱼类") "小脑袋鱼").2
    (by decide)
  rw [h]
  decide

/-! ### C1 -/

/-- C1: every background task produces at most one delivery, and — whenever
the outbound sender does not itself fail — exactly one delivery: the agent
reply when `invoke_agent` returned, else the user-visible apology produced
by `handle_exception` for the raised error. -/
theorem process_messages_one_terminal_outcome (open_kfid : String)
    (send_ok : Nat → Bool) (agent_result : Except String String)
    (send_exc_message : String) :
    (process_messages open_kfid send_ok agent_result send_exc_message).delivered.length ≤ 1 ∧
    ((∀ n, send_ok n = true) →
      (process_messages open_kfid send_ok agent_result send_exc_message).delivered
        = [match agent_result with
           | .ok r => r
           | .error m => handle_exception_user_message m]) := by
  constructor
  · rcases agent_result with m | r <;>
      simp only [process_messages, process_messages_on_error] <;>
      split_ifs <;> simp
  · intro hs
    rcases agent_result with m | r <;>
      simp [process_messages, process_messages_on_error, hs]

/-- Witness for C1: with a working sender, a successful agent run delivers
exactly the reply, and a crashing agent run delivers exactly the apology. -/
theorem process_messages_one_terminal_outcome_witness :
    (process_messages "kf1" (fun _ => true) (Except.ok "你好") "x").delivered = ["你好"] ∧
    (process_messages "" (fun _ => true) (Except.error "boom") "x").delivered
      = ["抱歉，系统遇到了一些问题，请稍后再试。"] := by
  constructor
  · have h := (process_messages_one_terminal_outcome "kf1" (fun _ => true)
      (Except.ok "你好") "x").2 (fun _ => rfl)
    simpa using h
  · have h := (process_messages_one_terminal_outcome "" (fun _ => true)
      (Except.error "boom") "x").2 (fun _ => rfl)
    rw [h]
    decide

/-! ### C3 -/

/-- C3: status mapping of the POST webhook branch — 401 on signature
failure, 400 on an unparseable body, 500 on every internal-error path of the
model (a non-signature exception out of decrypt, an empty sync result for a
tokened event, a sync result whose last message lacks `external_userid`, and
a raising direct send), and 200 with an empty body plus exactly one queued
background task for every successful decrypt-parse-enqueue: text messages,
media messages, and tokened events with a usable sync result. The final
conjunct states the success mapping in full generality: whenever a task was
enqueued, the response is 200 with an empty body. -/
theorem wechat_callback_post_statuses (env : PostEnv) :
    (env.decrypt = .error .invalidSignature →
      wechat_callback_post env = ⟨401, "Invalid signature", [], []⟩) ∧
    (env.decrypt = .error .other →
      wechat_callback_post env = ⟨500, "", [], []⟩) ∧
    (∀ d, env.decrypt = .ok d → env.parse d = none →
      wechat_callback_post env = ⟨400, "", [], []⟩) ∧
    (∀ d msg, env.decrypt = .ok d → env.parse d = some msg → msg.type = "text" →
      (wechat_callback_post env).status = 200 ∧ (wechat_callback_post env).body = ""
        ∧ (wechat_callback_post env).tasks.length = 1) ∧
    (∀ d msg, env.decrypt = .ok d → env.parse d = some msg →
      msg.type ∈ (["image", "video", "voice", "file"] : List String) →
      (wechat_callback_post env).status = 200 ∧ (wechat_callback_post env).body = ""
        ∧ (wechat_callback_post env).tasks.length = 1) ∧
    (∀ d msg last uid, env.decrypt = .ok d → env.parse d = some msg →
      msg.type = "event" → pyTruthy msg.token = true → pyTruthy msg.open_kf_id = true →
      (env.sync_kf (msg.open_kf_id.getD "") (msg.token.getD "")).getLast? = some last →
      last.externalUserid = some uid →
      (wechat_callback_post env).status = 200 ∧ (wechat_callback_post env).body = ""
        ∧ (wechat_callback_post env).tasks.length = 1) ∧
    (∀ d msg, env.decrypt = .ok d → env.parse d = some msg →
      msg.type = "event" → pyTruthy msg.token = true → pyTruthy msg.open_kf_id = true →
      (env.sync_kf (msg.open_kf_id.getD "") (msg.token.getD "")).getLast? = none →
      wechat_callback_post env = ⟨500, "", [], []⟩) ∧
    (∀ d msg last, env.decrypt = .ok d → env.parse d = some msg →
      msg.type = "event" → pyTruthy msg.token = true → pyTruthy msg.open_kf_id = true →
      (env.sync_kf (msg.open_kf_id.getD "") (msg.token.getD "")).getLast? = some last →
      last.externalUserid = none →
      wechat_callback_post env = ⟨500, "", [], []⟩) ∧
    (∀ d msg, env.decrypt = .ok d → env.parse d = some msg →
      msg.type ∉ (["text", "image", "video", "voice", "file", "event"] : List String) →
      env.send_text_ok = false →
      wechat_callback_post env = ⟨500, "", [], []⟩) ∧
    ((wechat_callback_post env).tasks ≠ [] →
      (wechat_callback_post env).status = 200 ∧ (wechat_callback_post env).body = "") := by
  refine ⟨?_, ?_, ?_, ?_, ?_, ?_, ?_, ?_, ?_, ?_⟩
  · intro h
    simp [wechat_callback_post, h]
  · intro h
    simp [wechat_callback_post, h]
  · intro d h1 h2
    simp [wechat_callback_post, h1, h2]
  · intro d msg h1 h2 h3
    simp [wechat_callback_post, h1, h2, h3]
  · intro d msg h1 h2 h3
    simp only [List.mem_cons, List.not_mem_nil, or_false] at h3
    rcases h3 with h3 | h3 | h3 | h3 <;>
      simp [wechat_callback_post, h1, h2, h3]
  · intro d msg last uid h1 h2 h3 h4 h5 h6 h7
    simp [wechat_callback_post, h1, h2, h3, h4, h5, h6, h7]
  · intro d msg h1 h2 h3 h4 h5 h6
    simp [wechat_callback_post, h1, h2, h3, h4, h5, h6]
  · intro d msg last h1 h2 h3 h4 h5 h6 h7
    simp [wechat_callback_post, h1, h2, h3, h4, h5, h6, h7]
  · intro d msg h1 h2 h3 h4
    simp only [List.mem_cons, List.not_mem_nil, or_false, not_or] at h3
    obtain ⟨ht, hi, hv, hvo, hf, he⟩ := h3
    simp [wechat_callback_post, h1, h2, ht, hi, hv, hvo, hf, he, h4]
  · have D : (wechat_callback_post env).tasks = []
        ∨ ((wechat_callback_post env).status = 200 ∧ (wechat_callback_post env).body = "") := by
      rcases hd : env.decrypt with e | d
      · cases e
        · left
          simp [wechat_callback_post, hd]
        · left
          simp [wechat_callback_post, hd]
      · rcases hp : env.parse d with _ | msg
        · left
          simp [wechat_callback_post, hd, hp]
        · by_cases h1 : msg.type = "event"
          · by_cases h2 : pyTruthy msg.token = true ∧ pyTruthy msg.open_kf_id = true
            · rcases hl : (env.sync_kf (msg.open_kf_id.getD "") (msg.token.getD "")).getLast?
                with _ | last
              · left
                simp [wechat_callback_post, hd, hp, h1, h2, hl]
              · rcases hu : last.externalUserid with _ | uid
                · left
                  simp [wechat_callback_post, hd, hp, h1, h2, hl, hu]
                · right
                  simp [wechat_callback_post, hd, hp, h1, h2, hl, hu]
            · left
              simp [wechat_callback_post, hd, hp, h1, h2]
          · by_cases h3 : msg.type = "text"
            · right
              simp [wechat_callback_post, hd, hp, h1, h3]
            · by_cases h4 : msg.type ∈ (["image", "video", "voice", "file"] : List String)
              · right
                simp [wechat_callback_post, hd, hp, h1, h3, h4]
              · left
                rcases h5 : env.send_text_ok <;>
                  simp [wechat_callback_post, hd, hp, h1, h3, h4, h5]
    intro h
    rcases D with D | D
    · exact absurd D h
    · exact D

/-- Witness for C3: concrete instances of the 401 case, each successful
enqueue kind (text, media, tokened event), and an internal-error 500. -/
theorem wechat_callback_post_statuses_witness :
    wechat_callback_post postEnvInvalidSig = ⟨401, "Invalid signature", [], []⟩ ∧
    ((wechat_callback_post postEnvText).status = 200
      ∧ (wechat_callback_post postEnvText).body = ""
      ∧ (wechat_callback_post postEnvText).tasks.length = 1) ∧
    ((wechat_callback_post postEnvMedia).status = 200
      ∧ (wechat_callback_post postEnvMedia).body = ""
      ∧ (wechat_callback_post postEnvMedia).tasks.length = 1) ∧
    ((wechat_callback_post postEnvEventToken).status = 200
      ∧ (wechat_callback_post postEnvEventToken).body = ""
      ∧ (wechat_callback_post postEnvEventToken).tasks.length = 1) ∧
    wechat_callback_post postEnvUnsupportedSendFail = ⟨500, "", [], []⟩ := by
  refine ⟨(wechat_callback_post_statuses postEnvInvalidSig).1 rfl, ?_, ?_, ?_, ?_⟩
  · exact (wechat_callback_post_statuses postEnvText).2.2.2.1 "xml"
      ⟨"text", "user1", none, none, "你好", "m1"⟩ rfl rfl rfl
  · exact (wechat_callback_post_statuses postEnvMedia).2.2.2.2.1 "xml"
      ⟨"image", "user1", none, none, "", "m1"⟩ rfl rfl (by decide)
  · exact (wechat_callback_post_statuses postEnvEventToken).2.2.2.2.2.1 "xml"
      ⟨"event", "user1", some "kf1", some "tok1", "", ""⟩
      (Msg.text (some "s") (some "u2") "hi") "u2"
      rfl rfl rfl (by decide) (by decide) rfl rfl
  · exact (wechat_callback_post_statuses postEnvUnsupportedSendFail).2.2.2.2.2.2.2.2.1 "xml"
      ⟨"link", "user1", none, none, "", ""⟩ rfl rfl (by decide) rfl

/-! ### C8 -/

/-- C8: a POST event message carrying no session token is ignored — the
handler returns 200 immediately, queues no background task and performs no
outbound send. -/
theorem event_without_token_ignored (env : PostEnv) (d : String) (msg : ParsedMsg) :
    env.decrypt = .ok d → env.parse d = some msg → msg.type = "event" →
    pyTruthy msg.token = false →
    wechat_callback_post env = ⟨200, "", [], []⟩ := by
  intro h1 h2 h3 h4
  simp [wechat_callback_post, h1, h2, h3, h4]

/-- Witness for C8 on a concrete tokenless event. -/
theorem event_without_token_ignored_witness :
    wechat_callback_post postEnvEventNoToken = ⟨200, "", [], []⟩ :=
  event_without_token_ignored postEnvEventNoToken "xml"
    ⟨"event", "user1", some "kf1", none, "", ""⟩ rfl rfl rfl rfl

/-! ### C9 -/

/-- C9: a POST message whose top-level type is not text/image/video/voice/
file/event triggers exactly one direct apology send and an immediate 200,
with no background task (so the Reasoning Dispatcher is never invoked). -/
theorem unsupported_type_direct_apology (env : PostEnv) (d : String) (msg : ParsedMsg) :
    env.decrypt = .ok d → env.parse d = some msg →
    msg.type ∉ (["text", "image", "video", "voice", "file", "event"] : List String) →
    env.send_text_ok = true →
    wechat_callback_post env
      = ⟨200, "", [], [(msg.source, "我暂时无法处理这种类型的消息。")]⟩ := by
  intro h1 h2 h3 h4
  simp only [List.mem_cons, List.not_mem_nil, or_false, not_or] at h3
  obtain ⟨ht, hi, hv, hvo, hf, he⟩ := h3
  simp [wechat_callback_post, h1, h2, ht, hi, hv, hvo, hf, he, h4]

/-- Witness for C9 on a concrete unsupported `link` message. -/
theorem unsupported_type_direct_apology_witness :
    wechat_callback_post postEnvUnsupported
      = ⟨200, "", [], [("user1", "我暂时无法处理这种类型的消息。")]⟩ :=
  unsupported_type_direct_apology postEnvUnsupported "xml"
    ⟨"link", "user1", none, none, "", ""⟩ rfl rfl (by decide) rfl

/-! ### C6 -/

/-- C6: GET verification — when the provided signature matches the keyed
digest, the response is 200 with the decrypted echo string unchanged; when
the signature check fails, 401; in particular any mutated signature (any
value different from the valid one) is rejected with 401. -/
theorem wechat_callback_get_verification
    (digest : String → String → String → String) (decrypt_echo : String → String)
    (signature timestamp nonce echostr : String) :
    (signature = digest timestamp nonce echostr →
      wechat_callback_get digest decrypt_echo signature timestamp nonce echostr
        = ⟨200, decrypt_echo echostr⟩) ∧
    (signature ≠ digest timestamp nonce echostr →
      wechat_callback_get digest decrypt_echo signature timestamp nonce echostr
        = ⟨401, "Invalid signature"⟩) ∧
    (∀ sig', signature = digest timestamp nonce echostr → sig' ≠ signature →
      wechat_callback_get digest decrypt_echo sig' timestamp nonce echostr
        = ⟨401, "Invalid signature"⟩) := by
  refine ⟨?_, ?_, ?_⟩
  · intro h
    simp [wechat_callback_get, check_signature, h]
  · intro h
    simp [wechat_callback_get, check_signature, h]
  · intro sig' h1 h2
    have h3 : sig' ≠ digest timestamp nonce echostr := by rw [← h1]; exact h2
    simp [wechat_callback_get, check_signature, h3]

/-- Witness for C6 at a concrete digest: the valid signature echoes the
decrypted string, a mutated one is rejected. -/
theorem wechat_callback_get_verification_witness :
    wechat_callback_get (fun _ _ _ => "SIG") (fun e => "dec-" ++ e) "SIG" "ts" "n" "echo"
      = ⟨200, "dec-echo"⟩ ∧
    wechat_callback_get (fun _ _ _ => "SIG") (fun e => "dec-" ++ e) "SIG2" "ts" "n" "echo"
      = ⟨401, "Invalid signature"⟩ :=
  ⟨(wechat_callback_get_verification (fun _ _ _ => "SIG") (fun e => "dec-" ++ e)
      "SIG" "ts" "n" "echo").1 rfl,
   (wechat_callback_get_verification (fun _ _ _ => "SIG") (fun e => "dec-" ++ e)
      "SIG" "ts" "n" "echo").2.2 "SIG2" rfl (by decide)⟩

/-! ### C7 -/

/-- C7: the vision tool returns a plain string on every oracle outcome — the
description on success, and degraded user-facing error strings otherwise —
with a media-download failure (a `RequestException`) and an analysis failure
mapped to distinct strings. -/
theorem media_tool_error_degradation (env : VisionEnv) (media_url : String) :
    (env.vision_llm_ok = false →
      get_media_content_from_url env media_url = "视觉分析工具未正确初始化。") ∧
    (∀ m, env.vision_llm_ok = true →
      env.download media_url = .error (.requestException m) →
      get_media_content_from_url env media_url
        = "下载媒体文件失败: " ++ handle_exception_user_message m) ∧
    (∀ content ct m, env.vision_llm_ok = true →
      env.download media_url = .ok (content, ct) →
      env.analyze (ct.getD "image/jpeg") content = .error (.otherException m) →
      get_media_content_from_url env media_url
        = "分析媒体内容时发生错误: " ++ handle_exception_user_message m) ∧
    (∀ content ct d, env.vision_llm_ok = true →
      env.download media_url = .ok (content, ct) →
      env.analyze (ct.getD "image/jpeg") content = .ok d →
      get_media_content_from_url env media_url = d) ∧
    (∀ m m', ("下载媒体文件失败: " ++ m) ≠ ("分析媒体内容时发生错误: " ++ m')) := by
  refine ⟨?_, ?_, ?_, ?_, ?_⟩
  · intro h
    simp [get_media_content_from_url, h]
  · intro m h1 h2
    simp [get_media_content_from_url, h1, h2]
  · intro content ct m h1 h2 h3
    simp [get_media_content_from_url, h1, h2, h3]
  · intro content ct d h1 h2 h3
    simp [get_media_content_from_url, h1, h2, h3]
  · intro m m' h
    have h2 := congrArg String.data h
    rw [String.data_append, String.data_append] at h2
    rw [show ("下载媒体文件失败: " : String).data
        = '下' :: "载媒体文件失败: ".data from rfl,
      show ("分析媒体内容时发生错误: " : String).data
        = '分' :: "析媒体内容时发生错误: ".data from rfl] at h2
    injection h2 with hc _
    exact absurd hc (by decide)

/-- Witness for C7: a connection failure degrades to the download-error
string, an analysis crash to the analysis-error string. -/
theorem media_tool_error_degradation_witness :
    get_media_content_from_url
        ⟨true, fun _ => Except.error (PyExc.requestException "connection refused"),
         fun _ _ => Except.ok "desc"⟩ "http://u"
      = "下载媒体文件失败: 网络连接异常，请稍后再试。" ∧
    get_media_content_from_url
        ⟨true, fun _ => Except.ok ("B64", some "image/png"),
         fun _ _ => Except.error (PyExc.otherException "boom")⟩ "http://u"
      = "分析媒体内容时发生错误: 抱歉，系统遇到了一些问题，请稍后再试。" := by
  constructor
  · have h := (media_tool_error_degradation
      ⟨true, fun _ => Except.error (PyExc.requestException "connection refused"),
       fun _ _ => Except.ok "desc"⟩ "http://u").2.1 "connection refused" rfl rfl
    rw [h]
    decide
  · have h := (media_tool_error_degradation
      ⟨true, fun _ => Except.ok ("B64", some "image/png"),
       fun _ _ => Except.error (PyExc.otherException "boom")⟩ "http://u").2.2.1
      "B64" (some "image/png") "boom" rfl rfl rfl
    rw [h]
    decide

end WecomAssistant
